import Mathlib

/-!
# Verification of the F1 MCP server's fetch/aggregation core

Shallow embedding of the `api_client` module and the claim-relevant tool
handlers of the F1 MCP server (Python).  JSON values returned by the
upstream Jolpica API are modelled by an inductive type `Json`; the dynamic
Python operations the source uses on them (`[]`, `.get`, `in`, iteration,
`int(...)`, truthiness, f-string interpolation) are modelled by `py*`
helpers, with a raised Python exception modelled as the `.error` case of
the `Py` monad (`Except PyExc`).
-/

namespace F1

/-- JSON values (Python objects decoded from the upstream API response).
Floating point numbers do not occur in the claim-relevant data (every
numeric field of the upstream API is delivered as a string), so numbers
are modelled as integers. -/
inductive Json where
  | null
  | bool (b : Bool)
  | num (n : Int)
  | str (s : String)
  | arr (xs : List Json)
  | obj (fields : List (String × Json))

/-- A raised Python exception, carrying its rendered message `str(e)`. -/
structure PyExc where
  msg : String

/-- Computations that may raise a Python exception. -/
abbrev Py (α : Type) := Except PyExc α

/-- Python truthiness of a JSON value (`if x:`). -/
def Json.truthy : Json → Bool
  | .null => false
  | .bool b => b
  | .num n => n != 0
  | .str s => !s.isEmpty
  | .arr xs => !xs.isEmpty
  | .obj fs => !fs.isEmpty

/-- Test whether `s` contains `pat` as a substring (Python `pat in s`). -/
def strContainsSub (s pat : String) : Bool :=
  (List.range (s.length + 1)).any (fun i => pat.isPrefixOf (s.drop i))

/-- Python `x[k]` for a string key: a `KeyError` on a dict without the key,
a `TypeError` on anything that is not a dict. -/
def pyIndex (j : Json) (k : String) : Py Json :=
  match j with
  | .obj fs =>
    match fs.lookup k with
    | some v => .ok v
    | none => .error ⟨"KeyError: " ++ k⟩
  | _ => .error ⟨"TypeError: value is not subscriptable by string"⟩

/-- Python `x[i]` for a numeric index (`races[0]`): an `IndexError` past the
end, a `TypeError` on a non-sequence.  Indexing a string yields the
one-character string. -/
def pyIndexNat (j : Json) (i : Nat) : Py Json :=
  match j with
  | .arr xs =>
    match xs.get? i with
    | some v => .ok v
    | none => .error ⟨"IndexError: list index out of range"⟩
  | .str s =>
    match s.toList.get? i with
    | some c => .ok (.str (String.singleton c))
    | none => .error ⟨"IndexError: string index out of range"⟩
  | _ => .error ⟨"TypeError: value is not subscriptable by index"⟩

/-- Python `x.get(k, default)`: an `AttributeError` on anything that is not
a dict. -/
def pyGetD (j : Json) (k : String) (d : Json) : Py Json :=
  match j with
  | .obj fs => .ok ((fs.lookup k).getD d)
  | _ => .error ⟨"AttributeError: value has no method get"⟩

/-- Python `x.get(k)` with its `None` default: an `AttributeError` on
anything that is not a dict. -/
def pyGetOpt (j : Json) (k : String) : Py (Option Json) :=
  match j with
  | .obj fs => .ok (fs.lookup k)
  | _ => .error ⟨"AttributeError: value has no method get"⟩

/-- Python `k in x` for a string `k`: key membership on a dict, element
membership on a list, substring test on a string, a `TypeError` otherwise. -/
def pyIn (k : String) (j : Json) : Py Bool :=
  match j with
  | .obj fs => .ok (fs.any (fun p => p.1 == k))
  | .arr xs => .ok (xs.any (fun x => match x with | .str s => s == k | _ => false))
  | .str s => .ok (strContainsSub s k)
  | _ => .error ⟨"TypeError: argument is not iterable"⟩

/-- Python iteration over a value (`for x in v`, `list.extend(v)`): the
elements of a list, the one-character strings of a string, the keys of a
dict; a `TypeError` on anything else. -/
def pyIter : Json → Py (List Json)
  | .arr xs => .ok xs
  | .str s => .ok (s.toList.map (fun c => .str (String.singleton c)))
  | .obj fs => .ok (fs.map (fun p => .str p.1))
  | _ => .error ⟨"TypeError: value is not iterable"⟩

/-- Python slicing `v[:n]` as used by the formatters: a prefix of a list or
string, a `TypeError` otherwise. -/
def pySliceTake (j : Json) (n : Nat) : Py Json :=
  match j with
  | .arr xs => .ok (.arr (xs.take n))
  | .str s => .ok (.str (String.mk (s.toList.take n)))
  | _ => .error ⟨"TypeError: value is not sliceable"⟩

/-- Python `str(v)` as used in f-string interpolation.  The claim-relevant
code only ever interpolates strings and integers; the `repr` of containers
is not modelled beyond a placeholder. -/
def pyStr : Json → String
  | .str s => s
  | .num n => toString n
  | .bool b => if b then "True" else "False"
  | .null => "None"
  | .arr _ => "<list>"
  | .obj _ => "<dict>"

/-- A non-empty all-digit character list read as a natural number. -/
def digitsToNat? (ds : List Char) : Option Nat :=
  if !ds.isEmpty && ds.all Char.isDigit then
    some (ds.foldl (fun acc c => acc * 10 + (c.toNat - 48)) 0)
  else none

/-- Python `int(s)` on a string: optional sign and decimal digits after
stripping surrounding whitespace, `none` on anything else (`ValueError`).
(Unicode digits and underscore separators, which CPython also accepts, do
not occur in the data and are not modelled.) -/
def pyIntOfString (s : String) : Option Int :=
  let t := ((s.toList.dropWhile Char.isWhitespace).reverse.dropWhile
    Char.isWhitespace).reverse
  match t with
  | '-' :: ds => (digitsToNat? ds).map (fun n => -(n : Int))
  | '+' :: ds => (digitsToNat? ds).map (fun n => (n : Int))
  | ds => (digitsToNat? ds).map (fun n => (n : Int))

/-- Result of Python `int(v)` on a JSON value, distinguishing the exception
class raised on failure (`ValueError` for a malformed string, `TypeError`
for a non-numeric type) because the source catches them differently. -/
inductive PyIntResult where
  | ok (n : Int)
  | valueError
  | typeError

/-- Python `int(v)` on a JSON value. -/
def pyIntE : Json → PyIntResult
  | .num n => .ok n
  | .bool b => .ok (if b then 1 else 0)
  | .str s =>
    match pyIntOfString s with
    | some n => .ok n
    | none => .valueError
  | .null => .typeError
  | .arr _ => .typeError
  | .obj _ => .typeError

/-- Python `v == s` between a JSON value and a string literal: true exactly
when `v` is that string (equality across types is `False` in Python). -/
def pyEqStr (j : Json) (s : String) : Bool :=
  match j with
  | .str t => t == s
  | _ => false

/-! ## The HTTP Fetcher: `make_jolpica_request` (api_client.py lines 13-75) -/

/-- The MCP `INTERNAL_ERROR` JSON-RPC error code, used by every `McpError`
the Fetcher raises. -/
def INTERNAL_ERROR : Int := -32603

/-- The payload of a raised `McpError`. -/
structure ErrorData where
  code : Int
  message : String

/-- The four internal failure kinds of the Fetcher, identified by the
`except` branch of `make_jolpica_request` that raised. -/
inductive UpstreamErrorKind where
  | httpError
  | networkError
  | decodeError
  | unknownError

/-- One upstream exchange as the Fetcher can observe it: either an HTTP
response (status, body text, and the result of JSON-parsing the body) or a
transport-level failure (`httpx.RequestError`), or any other unexpected
exception raised during the request. -/
inductive FetchEvent where
  | response (status : Nat) (bodyText : String) (parsed : Except String Json)
  | transportError (msg : String)
  | otherError (msg : String)

/-- Default `JOLPICA_BASE_URL` from config.py. -/
def JOLPICA_BASE_URL : String := "https://api.jolpi.ca/ergast/f1"

/-- Python `s.lstrip('/')`: remove every leading slash. -/
def lstripSlashes (s : String) : String :=
  String.mk (s.toList.dropWhile (fun c => c == '/'))

/-- URL construction of `make_jolpica_request` (api_client.py line 17):
`f"{JOLPICA_BASE_URL}/{endpoint.lstrip('/')}.json"`, with the configured
base URL as a parameter. -/
def jolpicaUrl (base endpoint : String) : String :=
  base ++ "/" ++ lstripSlashes endpoint ++ ".json"

/-- `make_jolpica_request` (api_client.py lines 13-75) as a function of the
observed upstream exchange.  `response.raise_for_status()` (httpx) raises
`HTTPStatusError` for every non-2xx status, before the body is parsed;
`response.json()` raises `json.JSONDecodeError` on a malformed body.  Each
`except` branch raises `McpError(ErrorData(code=INTERNAL_ERROR, ...))`; the
result pairs the erroring branch with the raised payload. -/
def make_jolpica_request (ev : FetchEvent) :
    Except (UpstreamErrorKind × ErrorData) Json :=
  match ev with
  | .response status body parsed =>
    if 200 ≤ status ∧ status ≤ 299 then
      match parsed with
      | .ok j => .ok j
      | .error m =>
        .error (.decodeError,
          ⟨INTERNAL_ERROR, "Invalid JSON response from Jolpica F1 API: " ++ m⟩)
    else
      .error (.httpError,
        ⟨INTERNAL_ERROR,
          "Jolpica F1 API HTTP error " ++ toString status ++ ": " ++ body⟩)
  | .transportError m =>
    .error (.networkError,
      ⟨INTERNAL_ERROR, "Jolpica F1 API network error: " ++ m⟩)
  | .otherError m =>
    .error (.unknownError,
      ⟨INTERNAL_ERROR, "Jolpica F1 API unexpected error: " ++ m⟩)

/-! ## The Career Standings Aggregator: `get_driver_career_standings`
(api_client.py lines 111-149) -/

/-- The behaviour of `make_jolpica_request` as seen by its callers: for
each endpoint either the parsed JSON envelope or a raised exception (the
tool handlers never inspect the exception beyond `str(e)`). -/
abbrev Fetch := String → Except PyExc Json

/-- The year range `range(current_year, current_year - 10, -1)` of
api_client.py line 120: the 10 most recent years, descending. -/
def careerYears (current_year : Int) : List Int :=
  (List.range 10).map (fun i => current_year - i)

/-- The per-year endpoint `f"{year}/drivers/{driver_id}/driverStandings"`
of api_client.py line 122. -/
def standingsEndpoint (year : Int) (driver_id : String) : String :=
  toString year ++ "/drivers/" ++ driver_id ++ "/driverStandings"

/-- The accesses the year-loop body performs on a fetched year envelope
(api_client.py lines 123-127), in the `Py` monad: any raised exception is
handled by the surrounding `except Exception: continue`. -/
def careerYearEntriesAux (year_data : Json) : Py (List Json) := do
  if year_data.truthy then
    let mem ← pyIn "MRData" year_data
    if mem then
      let mr ← pyIndex year_data "MRData"
      let standings_table ← pyGetD mr "StandingsTable" (.obj [])
      let standings_lists ← pyGetD standings_table "StandingsLists" (.arr [])
      if standings_lists.truthy then
        pyIter standings_lists
      else
        pure []
    else
      pure []
  else
    pure []

/-- The entries one successfully fetched year envelope contributes to
`recent_standings` (api_client.py lines 123-131): a raised exception means
the year is skipped. -/
def careerYearEntries (year_data : Json) : List Json :=
  match careerYearEntriesAux year_data with
  | .ok xs => xs
  | .error _ => []

/-- The full body of one iteration of the year loop (api_client.py lines
121-131): a failed fetch is swallowed by `except Exception: continue` and
the year contributes nothing. -/
def yearContribution (fetch : Fetch) (driver_id : String) (year : Int) :
    List Json :=
  match fetch (standingsEndpoint year driver_id) with
  | .error _ => []
  | .ok year_data => careerYearEntries year_data

/-- The year loop of `get_driver_career_standings` (api_client.py lines
120-131), instrumented: the first component records each endpoint passed
to the Fetcher in call order (pure bookkeeping on top of the loop body),
the second is the accumulated `recent_standings`. -/
def careerScan (fetch : Fetch) (current_year : Int) (driver_id : String) :
    List String × List Json :=
  (careerYears current_year).foldl
    (fun acc year =>
      (acc.1 ++ [standingsEndpoint year driver_id],
       acc.2 ++ yearContribution fetch driver_id year))
    ([], [])

/-- The synthesized ("mock") envelope of api_client.py lines 136-142. -/
def mkCareerEnvelope (recent_standings : List Json) : Json :=
  .obj [("MRData", .obj [("StandingsTable",
    .obj [("StandingsLists", .arr recent_standings)])])]

/-- `get_driver_career_standings` (api_client.py lines 111-149): scan the
10 most recent years, and wrap the accumulated entries in a synthesized
envelope if any were found, returning `None` (here `none`) otherwise. -/
def get_driver_career_standings (fetch : Fetch) (current_year : Int)
    (driver_id : String) : Option Json :=
  let recent_standings := (careerScan fetch current_year driver_id).2
  if recent_standings.isEmpty then none
  else some (mkCareerEnvelope recent_standings)

/-! ## Formatter: `get_latest_race_results` (race_tools.py lines 110-161) -/

/-- The `try` body of `get_latest_race_results` (race_tools.py lines
113-158).  `fmtDT` stands for `format_race_datetime` (api_client.py lines
78-108), a pure presentation helper taking the race date and optional time
strings; the claims do not constrain its output, so the body is stated for
an arbitrary such helper. -/
def get_latest_race_results_body (fmtDT : String → Option String → String)
    (fetch : Fetch) : Py String := do
  let data ← fetch "current/last/results"
  -- if not data or 'MRData' not in data or 'RaceTable' not in data['MRData']:
  let missing : Py Bool := do
    if !data.truthy then
      return true
    let hasMR ← pyIn "MRData" data
    if !hasMR then
      return true
    let mr ← pyIndex data "MRData"
    let hasRT ← pyIn "RaceTable" mr
    return !hasRT
  if (← missing) then
    return "🏁 No recent race results available. API might be unavailable."
  let mr ← pyIndex data "MRData"
  let race_table ← pyIndex mr "RaceTable"
  let racesVal ← pyIndex race_table "Races"
  if !racesVal.truthy then
    return "🏁 No race results found."
  let race ← pyIndexNat racesVal 0
  let results ← pyGetD race "Results" (.arr [])
  if !results.truthy then
    return "🏁 Race results not available yet."
  let circuit ← pyIndex race "Circuit"
  let location ← pyIndex circuit "Location"
  let mut response := "🏁 **Latest Race Results**\n"
  response := response ++ "**" ++ pyStr (← pyIndex race "raceName")
    ++ "** (Round " ++ pyStr (← pyIndex race "round") ++ ")\n"
  response := response ++ "Location: " ++ pyStr (← pyIndex location "locality")
    ++ ", " ++ pyStr (← pyIndex location "country") ++ "\n"
  response := response ++ "Circuit: " ++ pyStr (← pyIndex circuit "circuitName") ++ "\n"
  let dateStr := pyStr (← pyIndex race "date")
  let timeOpt ← pyGetOpt race "time"
  response := response ++ "Date: " ++ fmtDT dateStr (timeOpt.map pyStr) ++ "\n\n"
  response := response ++ "**Final Positions:**\n"
  let rlist ← pyIter results
  for result in rlist do
    let driver ← pyIndex result "Driver"
    let constructor ← pyIndex result "Constructor"
    response := response ++ "**P" ++ pyStr (← pyIndex result "position") ++ ": "
      ++ pyStr (← pyIndex driver "givenName") ++ " "
      ++ pyStr (← pyIndex driver "familyName") ++ "** ("
      ++ pyStr (← pyIndex constructor "name") ++ ")\n"
    let hasTime ← pyIn "Time" result
    if hasTime then
      let t ← pyIndex result "Time"
      response := response ++ "   Time: " ++ pyStr (← pyIndex t "time") ++ "\n"
    else
      let hasStatus ← pyIn "status" result
      if hasStatus then
        response := response ++ "   Status: " ++ pyStr (← pyIndex result "status") ++ "\n"
    let hasPoints ← pyIn "points" result
    if hasPoints then
      response := response ++ "   Points: " ++ pyStr (← pyIndex result "points") ++ "\n"
    response := response ++ "\n"
  return response

/-- `get_latest_race_results` (race_tools.py lines 110-161): the `try`
body with its `except Exception` handler, which renders any raised
exception as a user-facing failure message. -/
def get_latest_race_results (fmtDT : String → Option String → String)
    (fetch : Fetch) : String :=
  match get_latest_race_results_body fmtDT fetch with
  | .ok s => s
  | .error e => "Failed to get race results: " ++ e.msg

/-! ## Formatter: `get_race_analysis` (analysis_tools.py lines 14-95) -/

/-- The `try` body of `get_race_analysis` (analysis_tools.py lines 20-92). -/
def get_race_analysis_body (fetch : Fetch) (year : Int) (round_num : Int) :
    Py String := do
  -- round_identifier = 'last' if round_num == 0 else str(round_num)
  let round_identifier := if round_num == 0 then "last" else toString round_num
  let race_data ← fetch (toString year ++ "/" ++ round_identifier ++ "/results")
  let quali_data ← fetch (toString year ++ "/" ++ round_identifier ++ "/qualifying")
  -- if not race_data or 'MRData' not in race_data:
  let noRaceData : Py Bool := do
    if !race_data.truthy then
      return true
    let hasMR ← pyIn "MRData" race_data
    return !hasMR
  if (← noRaceData) then
    return "❌ No race data found for " ++ toString year ++ " round "
      ++ toString round_num ++ "."
  let mr ← pyIndex race_data "MRData"
  let race_table ← pyIndex mr "RaceTable"
  let races ← pyGetD race_table "Races" (.arr [])
  if !races.truthy then
    return "❌ No race found for " ++ toString year ++ " round "
      ++ toString round_num ++ "."
  let race ← pyIndexNat races 0
  let circuit ← pyIndex race "Circuit"
  let location ← pyIndex circuit "Location"
  let mut response := "🏁 **" ++ pyStr (← pyIndex race "raceName") ++ " - "
    ++ toString year ++ " Race Analysis**\n\n"
  response := response ++ "**Circuit:** " ++ pyStr (← pyIndex circuit "circuitName") ++ "\n"
  response := response ++ "**Location:** " ++ pyStr (← pyIndex location "locality")
    ++ ", " ++ pyStr (← pyIndex location "country") ++ "\n"
  response := response ++ "**Date:** " ++ pyStr (← pyIndex race "date") ++ "\n"
  response := response ++ "🏁 **Round:** " ++ pyStr (← pyIndex race "round") ++ "\n\n"
  -- if quali_data and 'MRData' in quali_data and quali_data['MRData']['RaceTable']['Races']:
  let qualiCond : Py Bool := do
    if !quali_data.truthy then
      return false
    let hasMR ← pyIn "MRData" quali_data
    if !hasMR then
      return false
    let qmr ← pyIndex quali_data "MRData"
    let qrt ← pyIndex qmr "RaceTable"
    let qraces ← pyIndex qrt "Races"
    return qraces.truthy
  if (← qualiCond) then
    let qmr ← pyIndex quali_data "MRData"
    let qrt ← pyIndex qmr "RaceTable"
    let qraces ← pyIndex qrt "Races"
    let quali_race ← pyIndexNat qraces 0
    let hasQR ← pyIn "QualifyingResults" quali_race
    if hasQR then
      response := response ++ "**⏱️ QUALIFYING RESULTS:**\n"
      let qrs ← pyIndex quali_race "QualifyingResults"
      let qrsSliced ← pySliceTake qrs 10
      let qlist ← pyIter qrsSliced
      for ir in qlist.enumFrom 1 do
        let i := ir.1
        let result := ir.2
        let driver ← pyIndex result "Driver"
        let constructor ← pyIndex result "Constructor"
        let inner1 ← pyGetD result "Q1" (.str "N/A")
        let inner2 ← pyGetD result "Q2" inner1
        let q3_time ← pyGetD result "Q3" inner2
        response := response ++ "P" ++ toString i ++ ": "
          ++ pyStr (← pyIndex driver "givenName") ++ " "
          ++ pyStr (← pyIndex driver "familyName") ++ " ("
          ++ pyStr (← pyIndex constructor "name") ++ ") - " ++ pyStr q3_time ++ "\n"
      response := response ++ "\n"
  -- if 'Results' in race:
  let hasResults ← pyIn "Results" race
  if hasResults then
    response := response ++ "**🏆 RACE RESULTS:**\n"
    let rs ← pyIndex race "Results"
    let rsSliced ← pySliceTake rs 10
    let rlist ← pyIter rsSliced
    for result in rlist do
      let driver ← pyIndex result "Driver"
      let constructor ← pyIndex result "Constructor"
      let position ← pyIndex result "position"
      let points ← pyGetD result "points" (.str "0")
      let mut time_status := ""
      let hasTime ← pyIn "Time" result
      if hasTime then
        let t ← pyIndex result "Time"
        time_status := "(" ++ pyStr (← pyIndex t "time") ++ ")"
      else
        let hasStatus ← pyIn "status" result
        if hasStatus then
          time_status := "(" ++ pyStr (← pyIndex result "status") ++ ")"
      response := response ++ "P" ++ pyStr position ++ ": "
        ++ pyStr (← pyIndex driver "givenName") ++ " "
        ++ pyStr (← pyIndex driver "familyName") ++ " ("
        ++ pyStr (← pyIndex constructor "name") ++ ") - " ++ pyStr points
        ++ " pts " ++ time_status ++ "\n"
    response := response ++ "\n"
    -- if race['Results']:
    let rs2 ← pyIndex race "Results"
    if rs2.truthy then
      let winner ← pyIndexNat rs2 0
      let winner_driver ← pyIndex winner "Driver"
      let winner_constructor ← pyIndex winner "Constructor"
      response := response ++ "**🏆 Race Winner:** "
        ++ pyStr (← pyIndex winner_driver "givenName") ++ " "
        ++ pyStr (← pyIndex winner_driver "familyName") ++ " ("
        ++ pyStr (← pyIndex winner_constructor "name") ++ ")\n"
      let hasFL ← pyIn "FastestLap" winner
      if hasFL then
        let fastest ← pyIndex winner "FastestLap"
        let ft ← pyGetD fastest "Time" (.obj [])
        let ftt ← pyGetD ft "time" (.str "N/A")
        let flap ← pyGetD fastest "lap" (.str "N/A")
        response := response ++ "**⚡ Fastest Lap:** " ++ pyStr ftt
          ++ " (Lap " ++ pyStr flap ++ ")\n"
  return response

/-- `get_race_analysis` (analysis_tools.py lines 14-95): the `try` body
with its `except Exception` handler. -/
def get_race_analysis (fetch : Fetch) (year : Int) (round_num : Int) : String :=
  match get_race_analysis_body fetch year round_num with
  | .ok s => s
  | .error e => "Failed to get race analysis: " ++ e.msg

/-! ## Career statistics counting in `get_driver_profile`
(driver_tools.py lines 122-150) -/

/-- The per-race statistics accumulated by `get_driver_profile`. -/
structure CareerCounts where
  wins : Nat
  podiums : Nat
  points_total : Int
  dnfs : Nat
deriving DecidableEq, Repr

/-- The per-result counting step of `get_driver_profile` (driver_tools.py
lines 130-150).  Note that `int(position)` sits under `except ValueError`
only, so a `TypeError` there (position of a non-numeric, non-string type)
propagates; `int(points)` sits under `except (ValueError, TypeError)`. -/
def countResult (acc : CareerCounts) (result : Json) : Py CareerCounts := do
  let position ← pyGetD result "position" (.str "N/A")
  let acc1 ←
    if !(pyEqStr position "N/A") then
      match pyIntE position with
      | .ok pos_int =>
        let acc' := if pos_int == 1 then { acc with wins := acc.wins + 1 } else acc
        pure (if pos_int ≤ 3 then { acc' with podiums := acc'.podiums + 1 } else acc')
      | .valueError => pure acc
      | .typeError => throw (⟨"TypeError: int() argument of wrong type"⟩ : PyExc)
    else
      pure { acc with dnfs := acc.dnfs + 1 }
  let pts ← pyGetD result "points" (.num 0)
  match pyIntE pts with
  | .ok p => pure { acc1 with points_total := acc1.points_total + p }
  | _ => pure acc1

/-- The nested counting loop of `get_driver_profile` (driver_tools.py
lines 129-150) over the fetched race list. -/
def profile_career_counts (races : List Json) : Py CareerCounts := do
  let mut counts : CareerCounts := ⟨0, 0, 0, 0⟩
  for race in races do
    let results ← pyGetD race "Results" (.arr [])
    let rlist ← pyIter results
    for result in rlist do
      counts ← countResult counts result
  return counts

/-! ## Concrete scenario for the end-to-end race-analysis claim -/

/-- First result of the scenario race: position "1", Mercedes. -/
def c7Result1 : Json := .obj [
  ("position", .str "1"), ("points", .str "25"),
  ("Driver", .obj [("givenName", .str "Lewis"), ("familyName", .str "Hamilton")]),
  ("Constructor", .obj [("name", .str "Mercedes")]),
  ("Time", .obj [("time", .str "1:32:03.897")])]

/-- Second result of the scenario race: position "2", Red Bull. -/
def c7Result2 : Json := .obj [
  ("position", .str "2"), ("points", .str "18"),
  ("Driver", .obj [("givenName", .str "Max"), ("familyName", .str "Verstappen")]),
  ("Constructor", .obj [("name", .str "Red Bull")]),
  ("status", .str "Finished")]

/-- The single race of the scenario envelope, with exactly two results. -/
def c7Race : Json := .obj [
  ("raceName", .str "Bahrain Grand Prix"),
  ("round", .str "1"),
  ("date", .str "2021-03-28"),
  ("Circuit", .obj [("circuitName", .str "Bahrain International Circuit"),
    ("Location", .obj [("locality", .str "Sakhir"), ("country", .str "Bahrain")])]),
  ("Results", .arr [c7Result1, c7Result2])]

/-- The envelope returned by the race-results endpoint in the scenario. -/
def c7RaceData : Json :=
  .obj [("MRData", .obj [("RaceTable", .obj [("Races", .arr [c7Race])])])]

/-- The envelope returned by the qualifying endpoint in the scenario: no
qualifying session data. -/
def c7QualiData : Json :=
  .obj [("MRData", .obj [("RaceTable", .obj [("Races", .arr [])])])]

/-- The Fetcher behaviour of the scenario: only the 2021 round-1 endpoints
answer. -/
def c7Fetch : Fetch := fun endpoint =>
  if endpoint == "2021/1/results" then .ok c7RaceData
  else if endpoint == "2021/1/qualifying" then .ok c7QualiData
  else .error ⟨"unexpected endpoint"⟩

/-! ## Concrete fixtures used to instantiate the theorems -/

/-- A minimal standings-list entry for a given season. -/
def seasonEntry (season : String) : Json := .obj [("season", .str season)]

/-- A Fetcher behaviour with standings data in exactly 3 of the 10 years
2015-2024 (2024, 2021 and 2017), one failing year (2019), and empty
standings lists everywhere else. -/
def threeYearFetch : Fetch := fun e =>
  if e == "2024/drivers/alonso/driverStandings" then
    .ok (mkCareerEnvelope [seasonEntry "2024"])
  else if e == "2021/drivers/alonso/driverStandings" then
    .ok (mkCareerEnvelope [seasonEntry "2021"])
  else if e == "2017/drivers/alonso/driverStandings" then
    .ok (mkCareerEnvelope [seasonEntry "2017"])
  else if e == "2019/drivers/alonso/driverStandings" then
    .error ⟨"Jolpica F1 API HTTP error 404: Not Found"⟩
  else
    .ok (mkCareerEnvelope [])

/-- A Fetcher behaviour that fails on every endpoint. -/
def failingFetch : Fetch := fun _ => .error ⟨"network down"⟩

/-- A Fetcher behaviour with the same single standings entry in every
year. -/
def everyYearFetch : Fetch := fun _ =>
  .ok (mkCareerEnvelope [seasonEntry "2020"])

/-- A race whose only result has the non-numeric position "R" (the
position text the upstream API uses for a retirement). -/
def c9Race : Json :=
  .obj [("Results", .arr [.obj [("position", .str "R"), ("points", .str "0")]])]

/-- A Fetcher behaviour whose race-results envelope has the `MRData`
container but is missing the expected `RaceTable` inside it
(`{'MRData': {}}`), with an empty qualifying envelope. -/
def missingTableFetch : Fetch := fun e =>
  if e == "2021/1/results" then .ok (.obj [("MRData", .obj [])])
  else if e == "2021/1/qualifying" then .ok (.obj [])
  else .error ⟨"unexpected endpoint"⟩

/-! ## Helper lemmas -/

/-- Characterization of the instrumented year loop: the trace is the map of
the endpoint template over the year list, and the accumulated entries are
the concatenation of the per-year contributions, in year-list order. -/
theorem careerScan_foldl (fetch : Fetch) (d : String) (years : List Int)
    (ts : List String) (es : List Json) :
    years.foldl
      (fun acc year =>
        (acc.1 ++ [standingsEndpoint year d],
         acc.2 ++ yearContribution fetch d year))
      (ts, es)
      = (ts ++ years.map (fun y => standingsEndpoint y d),
         es ++ (years.map (yearContribution fetch d)).flatten) := by
  induction years generalizing ts es with
  | nil => simp
  | cons y ys ih => simp [List.foldl_cons, ih]

/-- Dropping the empty lists of a list of lists does not change its
concatenation. -/
theorem join_filter_nonEmpty (L : List (List Json)) :
    (L.filter (fun l => !l.isEmpty)).flatten = L.flatten := by
  induction L with
  | nil => rfl
  | cons a as ih =>
    cases a with
    | nil => simpa using ih
    | cons x xs => simpa using ih

/-- The entry accumulator of the scan, written as a join over the year
contributions. -/
theorem careerScan_snd (fetch : Fetch) (current_year : Int) (d : String) :
    (careerScan fetch current_year d).2 =
      ((careerYears current_year).map (yearContribution fetch d)).flatten := by
  rw [careerScan, careerScan_foldl]
  simp

/-- Reduction of `>>=` in the `Py` monad on a success. -/
theorem py_bind_ok {α β : Type} (a : α) (f : α → Py β) :
    (Except.ok a : Py α) >>= f = f a := rfl

/-- Reduction of `>>=` in the `Py` monad on a raised exception. -/
theorem py_bind_error {α β : Type} (e : PyExc) (f : α → Py β) :
    (Except.error e : Py α) >>= f = Except.error e := rfl

/-- Reduction of `pure` in the `Py` monad. -/
theorem py_pure {α : Type} (a : α) : (pure a : Py α) = Except.ok a := rfl

/-- Reduction of `<$>` in the `Py` monad on a success. -/
theorem py_map_ok {α β : Type} (f : α → β) (a : α) :
    f <$> (Except.ok a : Py α) = Except.ok (f a) := rfl

/-- Reduction of `<$>` in the `Py` monad on a raised exception. -/
theorem py_map_error {α β : Type} (f : α → β) (e : PyExc) :
    f <$> (Except.error e : Py α) = Except.error e := rfl

/-! ## Claim theorems: the Career Standings Aggregator -/

/-- C1: For every driver identifier (and every Fetcher behaviour), the
Career Standings Aggregator probes exactly the 10 most recent years ending
at the current calendar year, in strictly descending order, invoking the
Fetcher exactly once per year at the endpoint
`"{year}/drivers/{driver_id}/driverStandings"`; a per-year fetch failure of
any kind is swallowed (the year contributes nothing) and the scan always
covers the full 10-year window with no early exit. -/
theorem career_probes_ten_years_descending (fetch : Fetch) (current_year : Int)
    (driver_id : String) :
    (careerScan fetch current_year driver_id).1 =
      (careerYears current_year).map (fun y => standingsEndpoint y driver_id) ∧
    careerYears current_year =
      [current_year, current_year - 1, current_year - 2, current_year - 3,
       current_year - 4, current_year - 5, current_year - 6, current_year - 7,
       current_year - 8, current_year - 9] ∧
    (careerYears current_year).Chain' (fun a b => b < a) ∧
    (∀ (year : Int) (e : PyExc),
      fetch (standingsEndpoint year driver_id) = .error e →
      yearContribution fetch driver_id year = []) := by
  have hyears : careerYears current_year =
      [current_year - 0, current_year - 1, current_year - 2, current_year - 3,
       current_year - 4, current_year - 5, current_year - 6, current_year - 7,
       current_year - 8, current_year - 9] := rfl
  refine ⟨?_, ?_, ?_, ?_⟩
  · rw [careerScan, careerScan_foldl]
    simp
  · rw [hyears]
    norm_num
  · rw [hyears]
    refine List.chain'_cons.mpr ⟨by omega, ?_⟩
    refine List.chain'_cons.mpr ⟨by omega, ?_⟩
    refine List.chain'_cons.mpr ⟨by omega, ?_⟩
    refine List.chain'_cons.mpr ⟨by omega, ?_⟩
    refine List.chain'_cons.mpr ⟨by omega, ?_⟩
    refine List.chain'_cons.mpr ⟨by omega, ?_⟩
    refine List.chain'_cons.mpr ⟨by omega, ?_⟩
    refine List.chain'_cons.mpr ⟨by omega, ?_⟩
    refine List.chain'_cons.mpr ⟨by omega, List.chain'_singleton _⟩
  · intro year e he
    rw [yearContribution, he]

/-- Witness for C1 at a concrete Fetcher, year and driver, discharging the
per-year failure hypothesis at the failing year 2019. -/
theorem career_probes_ten_years_descending_witness :
    yearContribution threeYearFetch "alonso" 2019 = [] :=
  (career_probes_ten_years_descending threeYearFetch 2024 "alonso").2.2.2
    2019 ⟨"Jolpica F1 API HTTP error 404: Not Found"⟩ rfl

/-- C2: if the per-year probes contribute non-empty standings lists in
exactly 3 of the 10 probed years — `L1`, `L2`, `L3` in descending-year
probe order — and nothing in the other 7 (empty or failed probes), the
Aggregator returns the synthesized envelope wrapping exactly
`L1 ++ L2 ++ L3`: no entries from the other years, no de-duplication. -/
theorem career_three_of_ten (fetch : Fetch) (current_year : Int)
    (driver_id : String) (L1 L2 L3 : List Json)
    (h3 : ((careerYears current_year).map (yearContribution fetch driver_id)).filter
        (fun l => !l.isEmpty) = [L1, L2, L3]) :
    get_driver_career_standings fetch current_year driver_id =
      some (mkCareerEnvelope (L1 ++ L2 ++ L3)) := by
  have hsnd : (careerScan fetch current_year driver_id).2 = L1 ++ (L2 ++ L3) := by
    rw [careerScan_snd, ← join_filter_nonEmpty, h3]
    simp
  have hmem : L1 ∈ ((careerYears current_year).map
      (yearContribution fetch driver_id)).filter (fun l => !l.isEmpty) := by
    rw [h3]
    simp
  have hne : L1 ≠ [] := by
    have hp := List.of_mem_filter hmem
    simpa using hp
  rw [get_driver_career_standings]
  rw [hsnd]
  cases L1 with
  | nil => exact absurd rfl hne
  | cons x xs => simp [mkCareerEnvelope]

/-- Witness for C2: the Fetcher behaviour `threeYearFetch` has standings
entries in exactly 2024, 2021 and 2017 among the 10 years ending 2024. -/
theorem career_three_of_ten_witness :
    get_driver_career_standings threeYearFetch 2024 "alonso" =
      some (mkCareerEnvelope ([seasonEntry "2024"] ++ [seasonEntry "2021"]
        ++ [seasonEntry "2017"])) :=
  career_three_of_ten threeYearFetch 2024 "alonso"
    [seasonEntry "2024"] [seasonEntry "2021"] [seasonEntry "2017"] (by rfl)

/-- C3: if the accumulated sequence is non-empty after the 10-year scan the
Aggregator returns the synthesized envelope wrapping it, and if it is
empty the Aggregator returns the absence value `none` — its return type
has no error outcome at all. -/
theorem career_envelope_or_absence (fetch : Fetch) (current_year : Int)
    (driver_id : String) :
    ((careerScan fetch current_year driver_id).2 ≠ [] →
      get_driver_career_standings fetch current_year driver_id =
        some (mkCareerEnvelope (careerScan fetch current_year driver_id).2)) ∧
    ((careerScan fetch current_year driver_id).2 = [] →
      get_driver_career_standings fetch current_year driver_id = none) := by
  constructor
  · intro h
    rw [get_driver_career_standings, if_neg]
    simpa using h
  · intro h
    rw [get_driver_career_standings, if_pos]
    simpa using h

/-- Witness for C3, discharging the empty case with an always-failing
Fetcher and the non-empty case with a Fetcher that has data every year. -/
theorem career_envelope_or_absence_witness :
    get_driver_career_standings failingFetch 2024 "alonso" = none ∧
    get_driver_career_standings everyYearFetch 2024 "alonso" =
      some (mkCareerEnvelope (careerScan everyYearFetch 2024 "alonso").2) := by
  constructor
  · exact (career_envelope_or_absence failingFetch 2024 "alonso").2 (by rfl)
  · refine (career_envelope_or_absence everyYearFetch 2024 "alonso").1 ?_
    have h : (careerScan everyYearFetch 2024 "alonso").2 =
        [seasonEntry "2020", seasonEntry "2020", seasonEntry "2020",
         seasonEntry "2020", seasonEntry "2020", seasonEntry "2020",
         seasonEntry "2020", seasonEntry "2020", seasonEntry "2020",
         seasonEntry "2020"] := rfl
    rw [h]
    simp

/-- C10: the Aggregator is total at its public interface: whatever the
Fetcher does (failures of any kind on any probe, unexpected envelope
shapes), it returns either the synthesized envelope of a non-empty entry
list or the absence value `none`; its type propagates no exception. -/
theorem career_total_interface (fetch : Fetch) (current_year : Int)
    (driver_id : String) :
    get_driver_career_standings fetch current_year driver_id = none ∨
    ∃ ls : List Json, ls ≠ [] ∧
      get_driver_career_standings fetch current_year driver_id =
        some (mkCareerEnvelope ls) := by
  by_cases h : (careerScan fetch current_year driver_id).2 = []
  · refine Or.inl ?_
    rw [get_driver_career_standings, if_pos]
    simpa using h
  · refine Or.inr ⟨(careerScan fetch current_year driver_id).2, h, ?_⟩
    rw [get_driver_career_standings, if_neg]
    simpa using h

/-! ## Claim theorems: the HTTP Fetcher -/

/-- C4: the Fetcher classifies failures by cause: a response with HTTP
status ≥ 400 fails with the HTTP-error kind, the message containing the
status code and the response body text; a 2xx response whose body is not
parseable JSON fails with the decode-error kind; a transport-level failure
fails with the network-error kind; any other unexpected exception yields
the unknown-error kind. -/
theorem fetcher_classifies_failures (status : Nat) (body m : String)
    (parsed : Except String Json) :
    (400 ≤ status →
      make_jolpica_request (.response status body parsed) =
        .error (.httpError, ⟨INTERNAL_ERROR,
          "Jolpica F1 API HTTP error " ++ toString status ++ ": " ++ body⟩) ∧
      ∃ pre mid : String,
        "Jolpica F1 API HTTP error " ++ toString status ++ ": " ++ body =
          pre ++ toString status ++ mid ++ body) ∧
    (200 ≤ status → status ≤ 299 → parsed = .error m →
      make_jolpica_request (.response status body parsed) =
        .error (.decodeError, ⟨INTERNAL_ERROR,
          "Invalid JSON response from Jolpica F1 API: " ++ m⟩)) ∧
    (make_jolpica_request (.transportError m) =
      .error (.networkError,
        ⟨INTERNAL_ERROR, "Jolpica F1 API network error: " ++ m⟩)) ∧
    (make_jolpica_request (.otherError m) =
      .error (.unknownError,
        ⟨INTERNAL_ERROR, "Jolpica F1 API unexpected error: " ++ m⟩)) := by
  refine ⟨?_, ?_, rfl, rfl⟩
  · intro h
    constructor
    · simp only [make_jolpica_request]
      rw [if_neg (by omega)]
    · exact ⟨"Jolpica F1 API HTTP error ", ": ", by
        simp [String.append_assoc]⟩
  · intro h1 h2 hp
    simp only [make_jolpica_request]
    rw [if_pos (by omega), hp]

/-- Witness for C4 at status 404 (HTTP error) and at status 200 with a
malformed body (decode error). -/
theorem fetcher_classifies_failures_witness :
    make_jolpica_request (.response 404 "Not Found" (.error "Expecting value")) =
      .error (.httpError, ⟨INTERNAL_ERROR,
        "Jolpica F1 API HTTP error " ++ toString (404 : Nat) ++ ": " ++ "Not Found"⟩) ∧
    make_jolpica_request (.response 200 "<html>" (.error "Expecting value")) =
      .error (.decodeError, ⟨INTERNAL_ERROR,
        "Invalid JSON response from Jolpica F1 API: " ++ "Expecting value"⟩) :=
  ⟨((fetcher_classifies_failures 404 "Not Found" "Expecting value"
      (.error "Expecting value")).1 (by norm_num)).1,
   (fetcher_classifies_failures 200 "<html>" "Expecting value"
      (.error "Expecting value")).2.1 (by norm_num) (by norm_num) rfl⟩

/-- C5: every failure the Fetcher raises — whichever of the four kinds —
carries the same error code `INTERNAL_ERROR`, so callers cannot
programmatically distinguish the kinds except by the message text. -/
theorem fetcher_uniform_error_code (ev : FetchEvent)
    (kind : UpstreamErrorKind) (e : ErrorData)
    (h : make_jolpica_request ev = .error (kind, e)) :
    e.code = INTERNAL_ERROR := by
  cases ev with
  | response status body parsed =>
    simp only [make_jolpica_request] at h
    split at h
    · cases parsed with
      | ok j => exact absurd h (by simp)
      | error m =>
        simp only [Except.error.injEq, Prod.mk.injEq] at h
        rw [← h.2]
    · simp only [Except.error.injEq, Prod.mk.injEq] at h
      rw [← h.2]
  | transportError m =>
    simp only [make_jolpica_request, Except.error.injEq, Prod.mk.injEq] at h
    rw [← h.2]
  | otherError m =>
    simp only [make_jolpica_request, Except.error.injEq, Prod.mk.injEq] at h
    rw [← h.2]

/-- Witness for C5 at a concrete transport failure. -/
theorem fetcher_uniform_error_code_witness :
    (ErrorData.mk INTERNAL_ERROR
      ("Jolpica F1 API network error: " ++ "connection refused")).code =
      INTERNAL_ERROR :=
  fetcher_uniform_error_code (.transportError "connection refused")
    .networkError
    ⟨INTERNAL_ERROR, "Jolpica F1 API network error: " ++ "connection refused"⟩
    rfl

/-- C6: the Fetcher builds the request URL by trimming leading slashes
from the endpoint fragment, appending the fixed ".json" suffix, and
prefixing the configured base URL plus a single slash; consequently any
number of additional leading slashes on a fragment leaves the URL
unchanged, so two fragments differing only in leading slashes produce the
identical URL. -/
theorem url_leading_slash_invariance (base endpoint : String) :
    jolpicaUrl base endpoint = base ++ "/" ++ lstripSlashes endpoint ++ ".json" ∧
    (∀ n : Nat,
      jolpicaUrl base (String.mk (List.replicate n '/') ++ endpoint) =
        jolpicaUrl base endpoint) := by
  refine ⟨rfl, ?_⟩
  intro n
  have hls : lstripSlashes (String.mk (List.replicate n '/') ++ endpoint) =
      lstripSlashes endpoint := by
    cases endpoint with
    | mk l =>
      show String.mk ((List.replicate n '/' ++ l).dropWhile (fun c => c == '/')) =
        String.mk (l.dropWhile (fun c => c == '/'))
      induction n with
      | zero => rfl
      | succ k ih =>
        rw [List.replicate_succ, List.cons_append, List.dropWhile_cons_of_pos (by simp)]
        exact ih
  rw [jolpicaUrl, jolpicaUrl, hls]

/-! ## Claim theorems: the formatters -/

set_option maxRecDepth 8192 in
/-- C7: when the race-results endpoint "2021/1/results" returns an
envelope containing a single race with exactly 2 results whose positions
are "1" and "2", the race-analysis formatter renders a block listing
exactly those two positions in that order ("P1: ..." then "P2: ..." and no
other result line), and the constructor of the position-"1" result
(Mercedes) is named one additional time in the "Race Winner" line. -/
theorem race_analysis_two_results_scenario :
    get_race_analysis c7Fetch 2021 1 =
      "🏁 **Bahrain Grand Prix - 2021 Race Analysis**\n\n**Circuit:** Bahrain International Circuit\n**Location:** Sakhir, Bahrain\n**Date:** 2021-03-28\n🏁 **Round:** 1\n\n**🏆 RACE RESULTS:**\nP1: Lewis Hamilton (Mercedes) - 25 pts (1:32:03.897)\nP2: Max Verstappen (Red Bull) - 18 pts (Finished)\n\n**🏆 Race Winner:** Lewis Hamilton (Mercedes)\n" := by
  rfl

set_option maxRecDepth 8192 in
/-- Counterexample to C8 as stated: `get_race_analysis`, given the
envelope `{'MRData': {}}` — which has the top-level container but is
missing its expected `RaceTable` — does NOT return a fixed "no data"
message: indexing `race_data['MRData']['RaceTable']` raises `KeyError`,
which the handler converts into "Failed to get race analysis: ...",
distinct from both of this formatter's fixed "no data" messages. -/
theorem formatter_missing_table_counterexample :
    get_race_analysis missingTableFetch 2021 1 =
      "Failed to get race analysis: " ++ "KeyError: RaceTable" ∧
    "Failed to get race analysis: " ++ "KeyError: RaceTable" ≠
      "❌ No race data found for 2021 round 1." ∧
    "Failed to get race analysis: " ++ "KeyError: RaceTable" ≠
      "❌ No race found for 2021 round 1." :=
  ⟨rfl, by decide, by decide⟩

/-- C8 amended: a formatter whose guard covers a container (the falsy /
missing-`MRData` / missing-table checks of `get_latest_race_results`)
renders the fixed "no data" message for it and does not raise; but a
formatter that indexes its expected table directly (`get_race_analysis`)
turns an envelope whose `MRData` lacks the table into the user-facing
failure text via its exception handler.  In all cases, any exception
arising during a formatter's execution is converted into
"Failed to get X: <message>" rather than propagating to the host. -/
theorem formatter_exception_shield
    (fmtDT : String → Option String → String) (fetch : Fetch)
    (year round_num : Int) :
    (∀ e : PyExc, get_latest_race_results_body fmtDT fetch = .error e →
      get_latest_race_results fmtDT fetch = "Failed to get race results: " ++ e.msg) ∧
    (∀ e : PyExc, fetch "current/last/results" = .error e →
      get_latest_race_results fmtDT fetch = "Failed to get race results: " ++ e.msg) ∧
    (∀ j : Json, fetch "current/last/results" = .ok j → j.truthy = false →
      get_latest_race_results fmtDT fetch =
        "🏁 No recent race results available. API might be unavailable.") ∧
    (∀ j : Json, fetch "current/last/results" = .ok j →
      pyIn "MRData" j = .ok false →
      get_latest_race_results fmtDT fetch =
        "🏁 No recent race results available. API might be unavailable.") ∧
    (∀ j mr : Json, fetch "current/last/results" = .ok j →
      pyIn "MRData" j = .ok true → pyIndex j "MRData" = .ok mr →
      pyIn "RaceTable" mr = .ok false →
      get_latest_race_results fmtDT fetch =
        "🏁 No recent race results available. API might be unavailable.") ∧
    (∀ e : PyExc, get_race_analysis_body fetch year round_num = .error e →
      get_race_analysis fetch year round_num =
        "Failed to get race analysis: " ++ e.msg) ∧
    (∀ j q mr : Json,
      fetch (toString year ++ "/"
        ++ (if round_num == 0 then "last" else toString round_num)
        ++ "/results") = .ok j →
      fetch (toString year ++ "/"
        ++ (if round_num == 0 then "last" else toString round_num)
        ++ "/qualifying") = .ok q →
      j.truthy = true → pyIn "MRData" j = .ok true →
      pyIndex j "MRData" = .ok mr →
      pyIndex mr "RaceTable" = .error ⟨"KeyError: RaceTable"⟩ →
      get_race_analysis fetch year round_num =
        "Failed to get race analysis: " ++ "KeyError: RaceTable") := by
  refine ⟨?_, ?_, ?_, ?_, ?_, ?_, ?_⟩
  · intro e he
    rw [get_latest_race_results, he]
  · intro e he
    rw [get_latest_race_results, get_latest_race_results_body, he]
    simp [py_bind_error]
  · intro j hj ht
    rw [get_latest_race_results, get_latest_race_results_body, hj]
    simp [py_bind_ok, py_bind_error, py_pure, py_map_ok, py_map_error, ht]
  · intro j hj hin
    rw [get_latest_race_results, get_latest_race_results_body, hj]
    by_cases ht : j.truthy
    · simp [py_bind_ok, py_bind_error, py_pure, py_map_ok, py_map_error, ht, hin]
    · simp [py_bind_ok, py_bind_error, py_pure, py_map_ok, py_map_error, ht]
  · intro j mr hj hin hidx hrt
    rw [get_latest_race_results, get_latest_race_results_body, hj]
    by_cases ht : j.truthy
    · simp [py_bind_ok, py_bind_error, py_pure, py_map_ok, py_map_error,
        ht, hin, hidx, hrt]
    · simp [py_bind_ok, py_bind_error, py_pure, py_map_ok, py_map_error, ht]
  · intro e he
    rw [get_race_analysis, he]
  · intro j q mr hj hq ht hin hidx hrt
    rw [get_race_analysis]
    simp only [get_race_analysis_body, hj, hq, py_bind_ok, py_bind_error,
      py_pure, py_map_ok, py_map_error, ht, hin, hidx, hrt]
    simp [py_bind_ok, py_bind_error, py_pure, hrt]

/-- Witness for the amended C8: a failing Fetcher and an empty envelope
exercise the failure-text and no-data branches of
`get_latest_race_results`; the `{'MRData': {}}` envelope exercises the
missing-table branch of `get_race_analysis`. -/
theorem formatter_exception_shield_witness :
    get_latest_race_results (fun d _ => d) failingFetch =
      "Failed to get race results: " ++ "network down" ∧
    get_latest_race_results (fun d _ => d) (fun _ => .ok (.obj [])) =
      "🏁 No recent race results available. API might be unavailable." ∧
    get_race_analysis missingTableFetch 2021 1 =
      "Failed to get race analysis: " ++ "KeyError: RaceTable" :=
  ⟨(formatter_exception_shield (fun d _ => d) failingFetch 2021 1).2.1
      ⟨"network down"⟩ rfl,
   (formatter_exception_shield (fun d _ => d)
      (fun _ => .ok (.obj [])) 2021 1).2.2.1 (.obj []) rfl rfl,
   (formatter_exception_shield (fun d _ => d) missingTableFetch 2021 1).2.2.2.2.2.2
      (.obj [("MRData", .obj [])]) (.obj []) (.obj []) rfl rfl rfl rfl rfl rfl⟩

/-! ## Claim theorems: career statistics counting (corrected) -/

/-- Counterexample to C9 as stated: a result whose position field is the
non-numeric string "R" (int() raises ValueError on it, as the first
conjunct shows) is NOT counted in the DNF tally — the aggregation of a
single race holding only that result yields dnfs = 0, where the claim
demands dnfs = 1.  (Only a missing position field, defaulted to "N/A", or
a literal "N/A" increments the DNF count.) -/
theorem nonnumeric_position_dnf_counterexample :
    pyIntE (.str "R") = .valueError ∧
    pyEqStr (.str "R") "N/A" = false ∧
    profile_career_counts [c9Race] =
      .ok { wins := 0, podiums := 0, points_total := 0, dnfs := 0 } :=
  ⟨rfl, rfl, rfl⟩

/-- C9 amended: in the career-statistics aggregation, a result whose
position field is missing (defaulted to "N/A") or literally the string
"N/A" is counted in the DNF tally; a result whose position is a
non-numeric string other than "N/A" is skipped — counted neither as DNF
nor toward wins/podiums; numeric positions count toward wins (position 1)
and podiums (position ≤ 3) by a linear scan. -/
theorem profile_position_counting (acc : CareerCounts) (result : Json)
    (position : Json)
    (hpos : pyGetD result "position" (.str "N/A") = .ok position) :
    (pyEqStr position "N/A" = true →
      ∃ acc2 : CareerCounts, countResult acc result = .ok acc2 ∧
        acc2.dnfs = acc.dnfs + 1 ∧ acc2.wins = acc.wins ∧
        acc2.podiums = acc.podiums) ∧
    (pyEqStr position "N/A" = false → pyIntE position = .valueError →
      ∃ acc2 : CareerCounts, countResult acc result = .ok acc2 ∧
        acc2.dnfs = acc.dnfs ∧ acc2.wins = acc.wins ∧
        acc2.podiums = acc.podiums) ∧
    (∀ n : Int, pyEqStr position "N/A" = false → pyIntE position = .ok n →
      ∃ acc2 : CareerCounts, countResult acc result = .ok acc2 ∧
        acc2.dnfs = acc.dnfs ∧
        acc2.wins = (if n = 1 then acc.wins + 1 else acc.wins) ∧
        acc2.podiums = (if n ≤ 3 then acc.podiums + 1 else acc.podiums)) := by
  have hbody : ∀ acc1 : CareerCounts, ∃ acc2 : CareerCounts,
      (do
        let pts ← pyGetD result "points" (.num 0)
        match pyIntE pts with
        | .ok p => pure { acc1 with points_total := acc1.points_total + p }
        | _ => pure acc1 : Py CareerCounts) = .ok acc2 ∧
      acc2.dnfs = acc1.dnfs ∧ acc2.wins = acc1.wins ∧
      acc2.podiums = acc1.podiums := by
    intro acc1
    cases result with
    | obj fs =>
      cases hp : pyIntE (((fs.lookup "points").getD (.num 0))) with
      | ok p =>
        exact ⟨{ acc1 with points_total := acc1.points_total + p },
          by simp [pyGetD, py_bind_ok, py_pure, hp], rfl, rfl, rfl⟩
      | valueError =>
        exact ⟨acc1, by simp [pyGetD, py_bind_ok, py_pure, hp], rfl, rfl, rfl⟩
      | typeError =>
        exact ⟨acc1, by simp [pyGetD, py_bind_ok, py_pure, hp], rfl, rfl, rfl⟩
    | null => simp [pyGetD] at hpos
    | bool b => simp [pyGetD] at hpos
    | num n => simp [pyGetD] at hpos
    | str s => simp [pyGetD] at hpos
    | arr xs => simp [pyGetD] at hpos
  refine ⟨?_, ?_, ?_⟩
  · intro hna
    obtain ⟨acc2, hrun, hd, hw, hpod⟩ := hbody { acc with dnfs := acc.dnfs + 1 }
    refine ⟨acc2, ?_, by simp [hd], by simp [hw], by simp [hpod]⟩
    rw [countResult]
    simp only [hpos, py_bind_ok, py_pure, hna]
    simpa [py_bind_ok, py_pure] using hrun
  · intro hna hval
    obtain ⟨acc2, hrun, hd, hw, hpod⟩ := hbody acc
    refine ⟨acc2, ?_, by simp [hd], by simp [hw], by simp [hpod]⟩
    rw [countResult]
    simp only [hpos, py_bind_ok, py_pure, hna, hval]
    simpa [py_bind_ok, py_pure] using hrun
  · intro n hna hok
    obtain ⟨acc2, hrun, hd, hw, hpod⟩ := hbody
      (if n ≤ 3 then
        { (if n == 1 then { acc with wins := acc.wins + 1 } else acc) with
          podiums :=
            (if n == 1 then { acc with wins := acc.wins + 1 } else acc).podiums + 1 }
       else (if n == 1 then { acc with wins := acc.wins + 1 } else acc))
    refine ⟨acc2, ?_, ?_, ?_, ?_⟩
    · rw [countResult]
      simp only [hpos, py_bind_ok, py_pure, hna, hok]
      simpa [py_bind_ok, py_pure] using hrun
    · rw [hd]
      by_cases h1 : n = 1 <;> by_cases h3 : n ≤ 3 <;> simp [h1, h3]
    · rw [hw]
      by_cases h1 : n = 1 <;> by_cases h3 : n ≤ 3 <;> simp [h1, h3]
    · rw [hpod]
      by_cases h1 : n = 1 <;> by_cases h3 : n ≤ 3 <;> simp [h1, h3]

/-- Witness for the amended C9 at three concrete results: a missing
position (DNF), the non-numeric position "R" (skipped), and the numeric
position "1" (win and podium). -/
theorem profile_position_counting_witness :
    (∃ acc2 : CareerCounts,
      countResult ⟨0, 0, 0, 0⟩ (.obj [("points", .str "0")]) = .ok acc2 ∧
      acc2.dnfs = 0 + 1 ∧ acc2.wins = 0 ∧ acc2.podiums = 0) ∧
    (∃ acc2 : CareerCounts,
      countResult ⟨0, 0, 0, 0⟩
        (.obj [("position", .str "R"), ("points", .str "0")]) = .ok acc2 ∧
      acc2.dnfs = 0 ∧ acc2.wins = 0 ∧ acc2.podiums = 0) ∧
    (∃ acc2 : CareerCounts,
      countResult ⟨0, 0, 0, 0⟩
        (.obj [("position", .str "1"), ("points", .str "25")]) = .ok acc2 ∧
      acc2.dnfs = 0 ∧
      acc2.wins = (if (1 : Int) = 1 then 0 + 1 else 0) ∧
      acc2.podiums = (if (1 : Int) ≤ 3 then 0 + 1 else 0)) :=
  ⟨(profile_position_counting ⟨0, 0, 0, 0⟩ (.obj [("points", .str "0")])
      (.str "N/A") rfl).1 rfl,
   (profile_position_counting ⟨0, 0, 0, 0⟩
      (.obj [("position", .str "R"), ("points", .str "0")])
      (.str "R") rfl).2.1 rfl rfl,
   (profile_position_counting ⟨0, 0, 0, 0⟩
      (.obj [("position", .str "1"), ("points", .str "25")])
      (.str "1") rfl).2.2 1 rfl rfl⟩

end F1
